import Mathlib

/-!
Shallow embedding of `src/extract_routes.py`.

The script builds an index from "atlas_term" identifiers to JSON-file
locations (`build_json_cache`), resolves a landing route per dataset row
(`get_route`), and writes an updated CSV plus a plain-text route list
(`main`).  Python strings are modelled as Lean `String`; the Python string
methods used by the script (`strip`, `lower`, `replace`, `endswith`,
slicing `[:-5]`) are re-implemented structurally below so that every
definition is executable by the kernel.  Python dictionaries are modelled
as association lists with first-match lookup; `json.load` results are
modelled by the `Json` inductive; Python exceptions that `get_route` can
raise (AttributeError / TypeError from calling string methods on non-string
values) are modelled with `Except PyErr`.
-/

namespace ExtractRoutes

instance {ε α : Type} [DecidableEq ε] [DecidableEq α] : DecidableEq (Except ε α) := fun a b =>
  match a, b with
  | .ok x, .ok y =>
    if h : x = y then .isTrue (by rw [h]) else .isFalse (by intro hc; cases hc; exact h rfl)
  | .error x, .error y =>
    if h : x = y then .isTrue (by rw [h]) else .isFalse (by intro hc; cases hc; exact h rfl)
  | .ok _, .error _ => .isFalse (by intro hc; cases hc)
  | .error _, .ok _ => .isFalse (by intro hc; cases hc)

/-- The whitespace characters removed by Python `str.strip()`. -/
def isPySpace (c : Char) : Bool :=
  c = ' ' || c = '\t' || c = '\n' || c = '\r' || c = '\x0b' || c = '\x0c'

/-- `str.strip()` on the character list: drop leading and trailing whitespace. -/
def stripChars (cs : List Char) : List Char :=
  ((cs.dropWhile isPySpace).reverse.dropWhile isPySpace).reverse

/-- Python `s.strip()`. -/
def pyStrip (s : String) : String :=
  ⟨stripChars s.data⟩

/-- Python `s.lower()` (the script only feeds it ASCII entity names). -/
def pyLower (s : String) : String :=
  ⟨s.data.map Char.toLower⟩

/-- Whether `p` is a prefix of `l` (helper for `replace` and `endswith`). -/
def headMatches : List Char → List Char → Bool
  | _, [] => true
  | [], _ :: _ => false
  | c :: cs, p :: ps => c = p && headMatches cs ps

/-- One fuel-indexed pass of Python `str.replace`: replace each
left-to-right non-overlapping occurrence of `pat` by `rep`.  The fuel is
an upper bound on the number of steps; each step consumes at least one
character, so `length + 1` fuel suffices (the script only ever replaces
the fixed non-empty pattern `$ENTIDAD`). -/
def replaceCharsAux (pat rep : List Char) : Nat → List Char → List Char
  | 0, cs => cs
  | _ + 1, [] => []
  | fuel + 1, c :: cs =>
    if headMatches (c :: cs) pat then
      rep ++ replaceCharsAux pat rep fuel (cs.drop (pat.length - 1))
    else
      c :: replaceCharsAux pat rep fuel cs

/-- Python `s.replace(pat, rep)` for non-empty `pat`. -/
def pyReplace (s pat rep : String) : String :=
  ⟨replaceCharsAux pat.data rep.data (s.data.length + 1) s.data⟩

/-- Python `s.endswith(suffix)`. -/
def pyEndsWith (s suffix : String) : Bool :=
  headMatches s.data.reverse suffix.data.reverse

/-- Python slicing `s[:-n]` for `n ≥ 1` (the script uses `filename[:-5]`
to drop the `.json` extension). -/
def pyDropLast (s : String) (n : Nat) : String :=
  ⟨s.data.take (s.data.length - n)⟩

/-- First-match lookup in an association list; models both Python
`key in dict` (via `Option.isSome`) and `dict[key]` / `dict.get(key)`. -/
def lookupKey {β : Type} : List (String × β) → String → Option β
  | [], _ => none
  | kv :: rest, k => if kv.1 = k then some kv.2 else lookupKey rest k

/-- Parsed JSON documents, the result type of `json.load`. -/
inductive Json where
  | str (s : String)
  | num (n : Int)
  | bool (b : Bool)
  | null
  | arr (elems : List Json)
  | obj (kvs : List (String × Json))

/-- The Python exceptions `get_route` can raise outside its `try` block:
`AttributeError` (calling `.get`/`.strip` on a value lacking it) and
`TypeError` (`in` on a non-container). -/
inductive PyErr where
  | attributeError (msg : String)
  | typeError (msg : String)
deriving DecidableEq, Repr

/-- Python equality between a JSON value and a Python string: true exactly
when the value is that string (numbers, lists, dicts, booleans and null
never equal a string in Python). -/
def jsonEqStr (j : Json) (key : String) : Bool :=
  match j with
  | .str s => s = key
  | _ => false

/-- Python `key in data` for a `json.load` result: key membership for a
dict, element membership for a list, substring test for a string,
`TypeError` otherwise. -/
def pyIn (key : String) : Json → Except PyErr Bool
  | .obj kvs => .ok (lookupKey kvs key).isSome
  | .arr elems => .ok (elems.any (fun j => jsonEqStr j key))
  | .str s => .ok ((s.splitOn key).length > 1)
  | _ => .error (.typeError "argument of type is not iterable")

/-- Python `data.get(key, default)`: only dicts have `.get`. -/
def dictGet (data : Json) (key : String) (default : Json) : Except PyErr Json :=
  match data with
  | .obj kvs => .ok ((lookupKey kvs key).getD default)
  | _ => .error (.attributeError "object has no attribute get")

/-- Python `value.strip()`: only strings have `.strip`. -/
def jsonStrip (j : Json) : Except PyErr String :=
  match j with
  | .str s => .ok (pyStrip s)
  | _ => .error (.attributeError "object has no attribute strip")

/-- Lines 63-68 of the script: select the route string.
`route = data.get("ruta_landing", "").strip() if "ruta_landing" in data else ""`
and, `if not route`, the same with the fallback key
`directorio_de_archivo_en_hdfs`. -/
def extractRoute (data : Json) : Except PyErr String :=
  match pyIn "ruta_landing" data with
  | .error e => .error e
  | .ok hasRutaLanding =>
    let primStep : Except PyErr String :=
      if hasRutaLanding then
        match dictGet data "ruta_landing" (.str "") with
        | .error e => .error e
        | .ok v => jsonStrip v
      else .ok ""
    match primStep with
    | .error e => .error e
    | .ok route =>
      if route = "" then
        match pyIn "directorio_de_archivo_en_hdfs" data with
        | .error e => .error e
        | .ok hasDir =>
          if hasDir then
            match dictGet data "directorio_de_archivo_en_hdfs" (.str "") with
            | .error e => .error e
            | .ok v => jsonStrip v
          else .ok ""
      else .ok route

/-- Lines 70-81 of the script: given the selected route string, either
fail with `NO_VALID_ROUTE_KEY`, or substitute `$ENTIDAD` by the lowercased
entity and validate the result (`RUTA_INVALID_AFTER_REPLACEMENT` when it
is empty or whitespace-only), or succeed. -/
def finishRoute (route : String) (entidad : String) : Option String × Option String :=
  if route = "" then
    (none, some "NO_VALID_ROUTE_KEY")
  else
    let replaced := pyReplace route "$ENTIDAD" (pyLower entidad)
    if replaced = "" ∨ pyStrip replaced = "" then
      (none, some "RUTA_INVALID_AFTER_REPLACEMENT")
    else
      (some replaced, none)

/-- Lines 44-81: `get_route(atlas_term, entidad)`.  The global
`json_file_cache` dict and the filesystem (reading and JSON-parsing the
file at a path, which the script wraps in `try/except` returning
`JSON_READ_ERROR`) are passed explicitly.  A `.ok` result is the returned
`(route, error_reason)` pair; a `.error` result is an uncaught Python
exception escaping `get_route`. -/
def get_route (cache : List (String × String)) (fs : String → Except String Json)
    (atlas_term entidad : String) : Except PyErr (Option String × Option String) :=
  match lookupKey cache atlas_term with
  | none => .ok (none, some ("FILE_NOT_FOUND: " ++ atlas_term ++ ".json"))
  | some json_file =>
    match fs json_file with
    | .error e => .ok (none, some ("JSON_READ_ERROR: " ++ e))
    | .ok data =>
      match extractRoute data with
      | .error e => .error e
      | .ok route => .ok (finishRoute route entidad)

/-- `os.path.join` on the script's Windows host: join with the `\`
separator. -/
def osJoin (a b : String) : String :=
  a ++ "\\" ++ b

/-- Python dict assignment `d[k] = v`: overwrite the entry in place when
the key is present (keeping its position), append a new entry otherwise.
Dictionaries built from `[]` by this operation keep their keys unique,
matching Python `dict`. -/
def dictAssign : List (String × String) → String → String → List (String × String)
  | [], k, v => [(k, v)]
  | kv :: rest, k, v =>
    if kv.1 = k then (k, v) :: rest else kv :: dictAssign rest k v

/-- Lines 24-28 of `build_json_cache`: one step of the flat
`params_Ingestas` scan — `json_file_cache[atlas_term] = join(dir, filename)`
for each listed filename ending in `.json`. -/
def insertFlat (params_dir : String) (cache : List (String × String))
    (filename : String) : List (String × String) :=
  if pyEndsWith filename ".json" then
    dictAssign cache (pyDropLast filename 5) (osJoin params_dir filename)
  else cache

/-- Lines 31-39 of `build_json_cache`: one step of the recursive
`atlas_prod-main` walk — each `(root, filename)` pair produced by
`os.walk`, registered only `if atlas_term not in json_file_cache`. -/
def insertTree (cache : List (String × String))
    (rootfile : String × String) : List (String × String) :=
  if pyEndsWith rootfile.2 ".json" then
    let atlas_term := pyDropLast rootfile.2 5
    if (lookupKey cache atlas_term).isSome then cache
    else cache ++ [(atlas_term, osJoin rootfile.1 rootfile.2)]
  else cache

/-- Lines 16-41: `build_json_cache()`.  Inputs are the directory listing
of `params_Ingestas` (`os.listdir`, scanned first) and the `(root, file)`
pairs of the `os.walk` traversal of `atlas_prod-main` (scanned second).
Missing directories correspond to empty input lists. -/
def build_json_cache (params_dir : String) (params_files : List String)
    (atlas_walk : List (String × String)) : List (String × String) :=
  atlas_walk.foldl insertTree (params_files.foldl (insertFlat params_dir) [])

/-- Whether the flat directory listing contributes the identifier `term`. -/
def flatHasTerm (params_files : List String) (term : String) : Bool :=
  params_files.any (fun fn => pyEndsWith fn ".json" && pyDropLast fn 5 == term)

/-- Whether the directory-tree walk contributes the identifier `term`. -/
def treeHasTerm (atlas_walk : List (String × String)) (term : String) : Bool :=
  atlas_walk.any (fun rf => pyEndsWith rf.2 ".json" && pyDropLast rf.2 5 == term)

/-- Lines 100-116 of `main`: the row loop.  Each row contributes its
`(atlas_term, entidad)` pair; successes are appended to `routes_list` and
to the new column, failures append the error reason (a Python string, or
`None` were `get_route` ever to return neither) to the column only.  An
uncaught exception from `get_route` aborts the loop. -/
def process_rows (cache : List (String × String)) (fs : String → Except String Json) :
    List (String × String) → List String × List (Option String) →
    Except PyErr (List String × List (Option String))
  | [], acc => .ok acc
  | (atlas_term, entidad) :: rest, (routes_list, col) =>
    match get_route cache fs atlas_term entidad with
    | .error e => .error e
    | .ok (some route, _) =>
      process_rows cache fs rest (routes_list ++ [route], col ++ [some route])
    | .ok (none, err) =>
      process_rows cache fs rest (routes_list, col ++ [err])

/-- Lines 132-134: the text written to `rutas_landing.txt` — each
successful route followed by a newline. -/
def routes_file_content (routes_list : List String) : String :=
  String.join (routes_list.map (fun route => route ++ "\n"))

/-- Writing a file opened with mode `w`: the previous content is
discarded entirely and replaced by the new content. -/
def write_text_file (_prev : String) (content : String) : String :=
  content

/-- The externally visible mutable state `main` touches after the row
loop: the CSV dataset file, the route-list file, and the console. -/
structure SysState where
  csv_file : String
  routes_file : String
  console : List String
deriving DecidableEq, Repr

/-- Lines 121-135 of `main`: save the updated CSV, and only if that did
not raise `PermissionError` (the file being held open elsewhere), write
the route-list file.  `csv_locked` models whether `df.to_csv` raises
`PermissionError`; in that case the function returns immediately after
printing the dedicated lock message, touching neither output file. -/
def save_outputs (csv_locked : Bool) (new_csv : String) (routes_list : List String)
    (s : SysState) : SysState :=
  if csv_locked then
    { s with console := s.console ++ ["⚠ CSV file is locked. Please close it and run again."] }
  else
    { csv_file := write_text_file s.csv_file new_csv,
      routes_file := write_text_file s.routes_file (routes_file_content routes_list),
      console := s.console ++ ["✓ Updated CSV saved", "✓ Routes file saved"] }

/-- Whether a JSON value is a string. -/
def jsonIsStr : Json → Bool
  | .str _ => true
  | _ => false

/-- A configuration on which `get_route`'s extraction code is
exception-free: a JSON object whose values under the two recognized keys
(`ruta_landing`, `directorio_de_archivo_en_hdfs`) are strings. -/
def stringRouteConfig : Json → Bool
  | .obj kvs => kvs.all (fun kv =>
      (kv.1 != "ruta_landing" && kv.1 != "directorio_de_archivo_en_hdfs") || jsonIsStr kv.2)
  | _ => false

/-- Whether `msg` starts with the tag `tag` (prefix-stable error tags). -/
def hasTag (msg tag : String) : Bool :=
  headMatches msg.data tag.data

/-- The four-code error taxonomy of the script: two detail-carrying tags
and two bare codes. -/
def inTaxonomy (msg : String) : Bool :=
  hasTag msg "FILE_NOT_FOUND" || hasTag msg "JSON_READ_ERROR" ||
  msg == "NO_VALID_ROUTE_KEY" || msg == "RUTA_INVALID_AFTER_REPLACEMENT"

/-- The success value the row loop extracts from one row: `some route`
when `get_route` returns a path, `none` on a row-level error (an uncaught
exception contributes nothing because it aborts the loop). -/
def rowSuccess (cache : List (String × String)) (fs : String → Except String Json)
    (row : String × String) : Option String :=
  match get_route cache fs row.1 row.2 with
  | .ok (some r, _) => some r
  | _ => none

/-! ### Helper lemmas about the resolver -/

theorem lookupKey_mem {β : Type} (d : List (String × β)) (k : String) (v : β)
    (h : lookupKey d k = some v) : (k, v) ∈ d := by
  induction d with
  | nil => simp [lookupKey] at h
  | cons kv rest ih =>
    obtain ⟨a, b⟩ := kv
    by_cases hk : a = k
    · subst hk
      simp [lookupKey] at h
      subst h
      exact List.mem_cons_self _ _
    · simp [lookupKey, hk] at h
      exact List.mem_cons_of_mem _ (ih h)

theorem pyStrip_empty : pyStrip "" = "" := rfl

theorem extractRoute_primary (kvs : List (String × Json)) (v : String)
    (hk : lookupKey kvs "ruta_landing" = some (.str v)) (hv : pyStrip v ≠ "") :
    extractRoute (.obj kvs) = .ok (pyStrip v) := by
  simp [extractRoute, pyIn, dictGet, jsonStrip, hk, hv]

theorem extractRoute_fallback (kvs : List (String × Json)) (w : String)
    (hp : lookupKey kvs "ruta_landing" = none ∨
          ∃ v, lookupKey kvs "ruta_landing" = some (.str v) ∧ pyStrip v = "")
    (hw : lookupKey kvs "directorio_de_archivo_en_hdfs" = some (.str w)) :
    extractRoute (.obj kvs) = .ok (pyStrip w) := by
  rcases hp with hp | ⟨v, hp, hv⟩ <;>
    simp_all [extractRoute, pyIn, dictGet, jsonStrip]

theorem get_route_of_extract (cache : List (String × String))
    (fs : String → Except String Json) (atlas_term entidad path : String)
    (data : Json) (route : String)
    (hc : lookupKey cache atlas_term = some path) (hf : fs path = .ok data)
    (hx : extractRoute data = .ok route) :
    get_route cache fs atlas_term entidad = .ok (finishRoute route entidad) := by
  simp [get_route, hc, hf, hx]

theorem finishRoute_success (route entidad : String) (hr : route ≠ "")
    (hne : pyStrip (pyReplace route "$ENTIDAD" (pyLower entidad)) ≠ "") :
    finishRoute route entidad
      = (some (pyReplace route "$ENTIDAD" (pyLower entidad)), none) := by
  have hrep : pyReplace route "$ENTIDAD" (pyLower entidad) ≠ "" := by
    intro h0
    exact hne (by rw [h0]; rfl)
  simp [finishRoute, hr, hrep, hne]

theorem finishRoute_invalid (route entidad : String) (hr : route ≠ "")
    (h0 : pyStrip (pyReplace route "$ENTIDAD" (pyLower entidad)) = "") :
    finishRoute route entidad = (none, some "RUTA_INVALID_AFTER_REPLACEMENT") := by
  simp [finishRoute, hr, h0]

/-! ### Claim theorems -/

/-- Claim C1: for every term identifier and entity name (and any index and
filesystem), whenever `get_route` returns a `(route, error)` pair, exactly
one of the two components is populated — never both, never neither — and
on success the returned path string is non-empty. -/
theorem C1_get_route_exactly_one (cache : List (String × String))
    (fs : String → Except String Json) (atlas_term entidad : String)
    (r err : Option String)
    (h : get_route cache fs atlas_term entidad = .ok (r, err)) :
    (∃ p, r = some p ∧ p ≠ "" ∧ err = none) ∨
    (r = none ∧ ∃ msg, err = some msg) := by
  cases hc : lookupKey cache atlas_term with
  | none =>
    simp only [get_route, hc, Except.ok.injEq, Prod.mk.injEq] at h
    obtain ⟨rfl, rfl⟩ := h
    exact Or.inr ⟨rfl, _, rfl⟩
  | some path =>
    cases hf : fs path with
    | error e =>
      simp only [get_route, hc, hf, Except.ok.injEq, Prod.mk.injEq] at h
      obtain ⟨rfl, rfl⟩ := h
      exact Or.inr ⟨rfl, _, rfl⟩
    | ok data =>
      cases hx : extractRoute data with
      | error e2 => simp [get_route, hc, hf, hx] at h
      | ok route =>
        simp only [get_route, hc, hf, hx, Except.ok.injEq] at h
        by_cases hr : route = ""
        · simp only [finishRoute, hr, if_true, reduceIte, Prod.mk.injEq] at h
          obtain ⟨rfl, rfl⟩ := h
          exact Or.inr ⟨rfl, _, rfl⟩
        · by_cases hw0 : pyStrip (pyReplace route "$ENTIDAD" (pyLower entidad)) = ""
          · rw [finishRoute_invalid route entidad hr hw0] at h
            simp only [Prod.mk.injEq] at h
            obtain ⟨rfl, rfl⟩ := h
            exact Or.inr ⟨rfl, _, rfl⟩
          · rw [finishRoute_success route entidad hr hw0] at h
            simp only [Prod.mk.injEq] at h
            obtain ⟨rfl, rfl⟩ := h
            refine Or.inl ⟨_, rfl, ?_, rfl⟩
            intro h0
            rw [h0, pyStrip_empty] at hw0
            exact hw0 rfl

/-- Witness for C1 at a concrete input: an identifier absent from an
empty index yields the `FILE_NOT_FOUND` error and no path. -/
theorem C1_witness :
    get_route [] (fun _ => .error "io") "t" "x"
      = .ok (none, some "FILE_NOT_FOUND: t.json") ∧
    ((∃ p, (none : Option String) = some p ∧ p ≠ "" ∧
        (some "FILE_NOT_FOUND: t.json" : Option String) = none) ∨
     ((none : Option String) = none ∧
      ∃ msg, (some "FILE_NOT_FOUND: t.json" : Option String) = some msg)) :=
  ⟨by decide,
   C1_get_route_exactly_one [] (fun _ => .error "io") "t" "x"
     none (some "FILE_NOT_FOUND: t.json") (by decide)⟩

/-- Claim C6: for every term identifier absent from the index and every
entity name, `get_route` returns normally (no exception) with the
`FILE_NOT_FOUND` error code carrying the identifier as detail, and no
path. -/
theorem C6_missing_identifier (cache : List (String × String))
    (fs : String → Except String Json) (atlas_term entidad : String)
    (h : lookupKey cache atlas_term = none) :
    get_route cache fs atlas_term entidad
      = .ok (none, some ("FILE_NOT_FOUND: " ++ atlas_term ++ ".json")) := by
  simp [get_route, h]

/-- Witness for C6 at a concrete input: the empty index. -/
theorem C6_witness :
    lookupKey ([] : List (String × String)) "orders" = none ∧
    get_route [] (fun _ => .error "io") "orders" "ACME"
      = .ok (none, some "FILE_NOT_FOUND: orders.json") :=
  ⟨by decide, C6_missing_identifier [] (fun _ => .error "io") "orders" "ACME" (by decide)⟩

/-- Claim C4: placeholder substitution replaces every occurrence of the
literal substring `$ENTIDAD` in the selected (trimmed) path value with the
lowercased entity name, as plain literal-text replacement (`pyReplace`
models Python `str.replace`): with a primary value whose trimmed form is
non-empty and whose substituted form is not whitespace-only, resolution
succeeds with exactly that substituted string. -/
theorem C4_substitution (cache : List (String × String))
    (fs : String → Except String Json) (atlas_term entidad path v : String)
    (kvs : List (String × Json))
    (hc : lookupKey cache atlas_term = some path)
    (hf : fs path = .ok (.obj kvs))
    (hk : lookupKey kvs "ruta_landing" = some (.str v))
    (hv : pyStrip v ≠ "")
    (hne : pyStrip (pyReplace (pyStrip v) "$ENTIDAD" (pyLower entidad)) ≠ "") :
    get_route cache fs atlas_term entidad
      = .ok (some (pyReplace (pyStrip v) "$ENTIDAD" (pyLower entidad)), none) := by
  rw [get_route_of_extract cache fs atlas_term entidad path (.obj kvs) (pyStrip v) hc hf
    (extractRoute_primary kvs v hk hv)]
  rw [finishRoute_success (pyStrip v) entidad hv hne]

/-- Witness for C4, the round-trip of the claim: primary value
`"/data/$ENTIDAD/raw"` with entity name `"ACME"` resolves to
`"/data/acme/raw"`. -/
theorem C4_witness :
    get_route [("t", "p")]
        (fun _ => .ok (.obj [("ruta_landing", .str "/data/$ENTIDAD/raw")])) "t" "ACME"
      = .ok (some "/data/acme/raw", none) :=
  (C4_substitution [("t", "p")]
      (fun _ => .ok (.obj [("ruta_landing", .str "/data/$ENTIDAD/raw")]))
      "t" "ACME" "p" "/data/$ENTIDAD/raw" [("ruta_landing", .str "/data/$ENTIDAD/raw")]
      (by decide) rfl rfl (by decide) (by decide)).trans (by decide)

/-- Counterexample to claim C2 as stated: a configuration whose primary
value is the whitespace-only string `"   "` (and no fallback key) fails
with `NO_VALID_ROUTE_KEY`, not `RUTA_INVALID_AFTER_REPLACEMENT` — the
script strips the value at extraction time (line 64) and so treats it as
absent. -/
theorem C2_counterexample :
    get_route [("t", "p")] (fun _ => .ok (.obj [("ruta_landing", .str "   ")])) "t" "E"
      = .ok (none, some "NO_VALID_ROUTE_KEY") ∧
    ("NO_VALID_ROUTE_KEY" : String) ≠ "RUTA_INVALID_AFTER_REPLACEMENT" := by
  decide

/-- Amended claim C2: when placeholder substitution applied to the
selected, trimmed, non-empty primary value produces an empty or
whitespace-only string, resolution fails with
`RUTA_INVALID_AFTER_REPLACEMENT` (a whitespace-only primary value itself
is instead treated as absent at extraction time). -/
theorem C2_amended_invalid_after_replacement (cache : List (String × String))
    (fs : String → Except String Json) (atlas_term entidad path v : String)
    (kvs : List (String × Json))
    (hc : lookupKey cache atlas_term = some path)
    (hf : fs path = .ok (.obj kvs))
    (hk : lookupKey kvs "ruta_landing" = some (.str v))
    (hv : pyStrip v ≠ "")
    (h0 : pyStrip (pyReplace (pyStrip v) "$ENTIDAD" (pyLower entidad)) = "") :
    get_route cache fs atlas_term entidad
      = .ok (none, some "RUTA_INVALID_AFTER_REPLACEMENT") := by
  rw [get_route_of_extract cache fs atlas_term entidad path (.obj kvs) (pyStrip v) hc hf
    (extractRoute_primary kvs v hk hv)]
  rw [finishRoute_invalid (pyStrip v) entidad hv h0]

/-- Witness for the amended C2: primary value `"$ENTIDAD"` with the empty
entity name substitutes to the empty string and fails with
`RUTA_INVALID_AFTER_REPLACEMENT`. -/
theorem C2_amended_witness :
    get_route [("t", "p")] (fun _ => .ok (.obj [("ruta_landing", .str "$ENTIDAD")])) "t" ""
      = .ok (none, some "RUTA_INVALID_AFTER_REPLACEMENT") :=
  C2_amended_invalid_after_replacement [("t", "p")]
    (fun _ => .ok (.obj [("ruta_landing", .str "$ENTIDAD")]))
    "t" "" "p" "$ENTIDAD" [("ruta_landing", .str "$ENTIDAD")]
    (by decide) rfl rfl (by decide) (by decide)

/-- Claim C5: when the primary key `ruta_landing` is missing or empty
after trimming and the fallback key `directorio_de_archivo_en_hdfs` holds
a value with non-empty trim, resolution uses the fallback value and runs
it through the very same substitution-and-validation pipeline
(`finishRoute`) as a primary value: the result equals the result of
resolving a configuration holding that value under the primary key. -/
theorem C5_fallback_precedence (cache : List (String × String))
    (fs : String → Except String Json) (atlas_term entidad path w : String)
    (kvs : List (String × Json))
    (hc : lookupKey cache atlas_term = some path)
    (hf : fs path = .ok (.obj kvs))
    (hp : lookupKey kvs "ruta_landing" = none ∨
          ∃ v, lookupKey kvs "ruta_landing" = some (.str v) ∧ pyStrip v = "")
    (hw : lookupKey kvs "directorio_de_archivo_en_hdfs" = some (.str w))
    (hwv : pyStrip w ≠ "") :
    get_route cache fs atlas_term entidad = .ok (finishRoute (pyStrip w) entidad) ∧
    ∀ fs2 : String → Except String Json,
      fs2 path = .ok (.obj [("ruta_landing", .str w)]) →
      get_route cache fs atlas_term entidad = get_route cache fs2 atlas_term entidad := by
  have h1 := get_route_of_extract cache fs atlas_term entidad path (.obj kvs) (pyStrip w)
    hc hf (extractRoute_fallback kvs w hp hw)
  refine ⟨h1, ?_⟩
  intro fs2 hf2
  rw [h1, get_route_of_extract cache fs2 atlas_term entidad path
    (.obj [("ruta_landing", .str w)]) (pyStrip w) hc hf2
    (extractRoute_primary [("ruta_landing", .str w)] w (by simp [lookupKey]) hwv)]

/-- Witness for C5 at a concrete input: empty-after-trim primary, fallback
`"/hdfs/$ENTIDAD"`, entity `"X"`. -/
theorem C5_witness :
    get_route [("t", "p")]
        (fun _ => .ok (.obj [("ruta_landing", .str "  "),
                             ("directorio_de_archivo_en_hdfs", .str "/hdfs/$ENTIDAD")]))
        "t" "X"
      = .ok (finishRoute (pyStrip "/hdfs/$ENTIDAD") "X") ∧
    get_route [("t", "p")]
        (fun _ => .ok (.obj [("ruta_landing", .str "  "),
                             ("directorio_de_archivo_en_hdfs", .str "/hdfs/$ENTIDAD")]))
        "t" "X"
      = .ok (some "/hdfs/x", none) :=
  have h := C5_fallback_precedence [("t", "p")]
    (fun _ => .ok (.obj [("ruta_landing", .str "  "),
                         ("directorio_de_archivo_en_hdfs", .str "/hdfs/$ENTIDAD")]))
    "t" "X" "p" "/hdfs/$ENTIDAD"
    [("ruta_landing", .str "  "), ("directorio_de_archivo_en_hdfs", .str "/hdfs/$ENTIDAD")]
    (by decide) rfl (Or.inr ⟨"  ", rfl, by decide⟩) rfl (by decide)
  ⟨h.1, h.1.trans (by decide)⟩

/-- Claim C10: the resolver trims the selected configuration value
(primary, or fallback when the primary is absent or empty after trimming)
before placeholder substitution: resolution proceeds on the trimmed value,
and any successfully resolved path equals the trimmed value with
`$ENTIDAD` replaced — the value's surrounding whitespace is never
retained. -/
theorem C10_trims_before_substitution (cache : List (String × String))
    (fs : String → Except String Json) (atlas_term entidad path v : String)
    (kvs : List (String × Json))
    (hc : lookupKey cache atlas_term = some path)
    (hf : fs path = .ok (.obj kvs))
    (hsel : lookupKey kvs "ruta_landing" = some (.str v) ∨
            ((lookupKey kvs "ruta_landing" = none ∨
              ∃ u, lookupKey kvs "ruta_landing" = some (.str u) ∧ pyStrip u = "") ∧
             lookupKey kvs "directorio_de_archivo_en_hdfs" = some (.str v)))
    (hv : pyStrip v ≠ "") :
    get_route cache fs atlas_term entidad = .ok (finishRoute (pyStrip v) entidad) ∧
    ∀ p, get_route cache fs atlas_term entidad = .ok (some p, none) →
      p = pyReplace (pyStrip v) "$ENTIDAD" (pyLower entidad) := by
  have hx : extractRoute (.obj kvs) = .ok (pyStrip v) := by
    rcases hsel with hk | ⟨hp, hw⟩
    · exact extractRoute_primary kvs v hk hv
    · exact extractRoute_fallback kvs v hp hw
  have h1 := get_route_of_extract cache fs atlas_term entidad path (.obj kvs) (pyStrip v)
    hc hf hx
  refine ⟨h1, ?_⟩
  intro p hp2
  rw [h1] at hp2
  simp only [Except.ok.injEq] at hp2
  by_cases hw0 : pyStrip (pyReplace (pyStrip v) "$ENTIDAD" (pyLower entidad)) = ""
  · rw [finishRoute_invalid (pyStrip v) entidad hv hw0] at hp2
    simp at hp2
  · rw [finishRoute_success (pyStrip v) entidad hv hw0] at hp2
    simp only [Prod.mk.injEq, Option.some.injEq] at hp2
    exact hp2.1.symm

/-- Witness for C10 at a concrete input: primary value
`"  /d/$ENTIDAD  "` (surrounding whitespace) with entity `"A"` resolves
to `"/d/a"`, the trimmed value with the placeholder replaced. -/
theorem C10_witness :
    get_route [("t", "p")] (fun _ => .ok (.obj [("ruta_landing", .str "  /d/$ENTIDAD  ")]))
        "t" "A"
      = .ok (finishRoute (pyStrip "  /d/$ENTIDAD  ") "A") ∧
    "/d/a" = pyReplace (pyStrip "  /d/$ENTIDAD  ") "$ENTIDAD" (pyLower "A") :=
  have h := C10_trims_before_substitution [("t", "p")]
    (fun _ => .ok (.obj [("ruta_landing", .str "  /d/$ENTIDAD  ")])) "t" "A" "p"
    "  /d/$ENTIDAD  " [("ruta_landing", .str "  /d/$ENTIDAD  ")]
    (by decide) rfl (Or.inl rfl) (by decide)
  ⟨h.1, h.2 "/d/a" (h.1.trans (by decide))⟩

theorem headMatches_append (p l m : List Char) (h : headMatches l p = true) :
    headMatches (l ++ m) p = true := by
  induction p generalizing l with
  | nil => simp [headMatches]
  | cons c cs ih =>
    cases l with
    | nil => simp [headMatches] at h
    | cons a as =>
      simp only [headMatches, Bool.and_eq_true, decide_eq_true_eq] at h
      simp only [List.cons_append, headMatches, Bool.and_eq_true, decide_eq_true_eq]
      exact ⟨h.1, ih as h.2⟩

theorem hasTag_append (a b tag : String) (h : hasTag a tag = true) :
    hasTag (a ++ b) tag = true := by
  have hd : (a ++ b).data = a.data ++ b.data := rfl
  unfold hasTag at h ⊢
  rw [hd]
  exact headMatches_append _ _ _ h

theorem stringRouteConfig_lookup (kvs : List (String × Json)) (k : String) (v : Json)
    (hd : stringRouteConfig (.obj kvs) = true)
    (hk : k = "ruta_landing" ∨ k = "directorio_de_archivo_en_hdfs")
    (hv : lookupKey kvs k = some v) : ∃ s, v = .str s := by
  have hmem := lookupKey_mem kvs k v hv
  simp only [stringRouteConfig, List.all_eq_true] at hd
  have hp := hd (k, v) hmem
  simp only [Bool.or_eq_true, Bool.and_eq_true, bne_iff_ne, ne_eq] at hp
  rcases hp with ⟨h1, h2⟩ | h3
  · rcases hk with rfl | rfl
    · exact absurd rfl h1
    · exact absurd rfl h2
  · cases v with
    | str s => exact ⟨s, rfl⟩
    | num n => simp [jsonIsStr] at h3
    | bool b => simp [jsonIsStr] at h3
    | null => simp [jsonIsStr] at h3
    | arr xs => simp [jsonIsStr] at h3
    | obj o => simp [jsonIsStr] at h3

theorem extractRoute_both_absent (kvs : List (String × Json))
    (hp : lookupKey kvs "ruta_landing" = none ∨
          ∃ v, lookupKey kvs "ruta_landing" = some (.str v) ∧ pyStrip v = "")
    (hw : lookupKey kvs "directorio_de_archivo_en_hdfs" = none) :
    extractRoute (.obj kvs) = .ok "" := by
  rcases hp with hp | ⟨v, hp, hv⟩ <;>
    simp_all [extractRoute, pyIn, dictGet, jsonStrip]

theorem extractRoute_stringConfig (data : Json) (hd : stringRouteConfig data = true) :
    ∃ route, extractRoute data = .ok route := by
  cases data with
  | str s => simp [stringRouteConfig] at hd
  | num n => simp [stringRouteConfig] at hd
  | bool b => simp [stringRouteConfig] at hd
  | null => simp [stringRouteConfig] at hd
  | arr xs => simp [stringRouteConfig] at hd
  | obj kvs =>
    cases hks : lookupKey kvs "ruta_landing" with
    | some v =>
      obtain ⟨s, rfl⟩ := stringRouteConfig_lookup kvs "ruta_landing" v hd (Or.inl rfl) hks
      by_cases hse : pyStrip s = ""
      · cases hkd : lookupKey kvs "directorio_de_archivo_en_hdfs" with
        | some w =>
          obtain ⟨s2, rfl⟩ :=
            stringRouteConfig_lookup kvs "directorio_de_archivo_en_hdfs" w hd (Or.inr rfl) hkd
          exact ⟨pyStrip s2, extractRoute_fallback kvs s2 (Or.inr ⟨s, hks, hse⟩) hkd⟩
        | none => exact ⟨"", extractRoute_both_absent kvs (Or.inr ⟨s, hks, hse⟩) hkd⟩
      · exact ⟨pyStrip s, extractRoute_primary kvs s hks hse⟩
    | none =>
      cases hkd : lookupKey kvs "directorio_de_archivo_en_hdfs" with
      | some w =>
        obtain ⟨s2, rfl⟩ :=
          stringRouteConfig_lookup kvs "directorio_de_archivo_en_hdfs" w hd (Or.inr rfl) hkd
        exact ⟨pyStrip s2, extractRoute_fallback kvs s2 (Or.inl hks) hkd⟩
      | none => exact ⟨"", extractRoute_both_absent kvs (Or.inl hks) hkd⟩

/-- Counterexample to claim C7 as stated: with a parseable configuration
holding a non-string value under the recognized key `ruta_landing`,
`get_route` raises an uncaught `AttributeError` (Python `(5).strip()`)
instead of returning a `(path, error)` pair — the `try` block only covers
reading and parsing the file. -/
theorem C7_counterexample :
    get_route [("t", "p")] (fun _ => .ok (.obj [("ruta_landing", .num 5)])) "t" "e"
      = .error (.attributeError "object has no attribute strip") := by
  decide

/-- Amended claim C7: for every row input whose parseable configurations
are JSON objects holding strings under the two recognized keys,
`get_route` terminates with a `(path, error)` pair — never an exception —
and any error code is drawn from the four-code taxonomy. -/
theorem C7_amended_total_taxonomy (cache : List (String × String))
    (fs : String → Except String Json) (atlas_term entidad : String)
    (hok : ∀ path data, fs path = .ok data → stringRouteConfig data = true) :
    ∃ r err, get_route cache fs atlas_term entidad = .ok (r, err) ∧
      ((∃ p, r = some p ∧ err = none) ∨
       (r = none ∧ ∃ msg, err = some msg ∧ inTaxonomy msg = true)) := by
  cases hc : lookupKey cache atlas_term with
  | none =>
    refine ⟨none, some ("FILE_NOT_FOUND: " ++ atlas_term ++ ".json"),
      by simp [get_route, hc], Or.inr ⟨rfl, _, rfl, ?_⟩⟩
    have h1 : hasTag ("FILE_NOT_FOUND: " ++ atlas_term) "FILE_NOT_FOUND" = true :=
      hasTag_append "FILE_NOT_FOUND: " atlas_term "FILE_NOT_FOUND" (by decide)
    have h2 := hasTag_append ("FILE_NOT_FOUND: " ++ atlas_term) ".json" "FILE_NOT_FOUND" h1
    simp [inTaxonomy, h2]
  | some path =>
    cases hf : fs path with
    | error e =>
      refine ⟨none, some ("JSON_READ_ERROR: " ++ e),
        by simp [get_route, hc, hf], Or.inr ⟨rfl, _, rfl, ?_⟩⟩
      have h1 : hasTag ("JSON_READ_ERROR: " ++ e) "JSON_READ_ERROR" = true :=
        hasTag_append "JSON_READ_ERROR: " e "JSON_READ_ERROR" (by decide)
      simp [inTaxonomy, h1]
    | ok data =>
      obtain ⟨route, hx⟩ := extractRoute_stringConfig data (hok path data hf)
      have hg := get_route_of_extract cache fs atlas_term entidad path data route hc hf hx
      by_cases hr : route = ""
      · refine ⟨none, some "NO_VALID_ROUTE_KEY", ?_, Or.inr ⟨rfl, _, rfl, by decide⟩⟩
        rw [hg]
        simp [finishRoute, hr]
      · by_cases hw0 : pyStrip (pyReplace route "$ENTIDAD" (pyLower entidad)) = ""
        · exact ⟨none, some "RUTA_INVALID_AFTER_REPLACEMENT",
            by rw [hg, finishRoute_invalid route entidad hr hw0],
            Or.inr ⟨rfl, _, rfl, by decide⟩⟩
        · exact ⟨some (pyReplace route "$ENTIDAD" (pyLower entidad)), none,
            by rw [hg, finishRoute_success route entidad hr hw0], Or.inl ⟨_, rfl, rfl⟩⟩

/-- Witness for the amended C7 at a concrete input: a filesystem on which
every read fails (so every parseable configuration vacuously satisfies the
restriction). -/
theorem C7_amended_witness :
    ∃ r err, get_route [("t", "p")] (fun _ => .error "io") "t" "e" = .ok (r, err) ∧
      ((∃ p, r = some p ∧ err = none) ∨
       (r = none ∧ ∃ msg, err = some msg ∧ inTaxonomy msg = true)) :=
  C7_amended_total_taxonomy [("t", "p")] (fun _ => .error "io") "t" "e"
    (fun _ _ h => Except.noConfusion h)

theorem process_rows_routes (cache : List (String × String))
    (fs : String → Except String Json) (rows : List (String × String)) :
    ∀ rl0 col0 rl col,
    process_rows cache fs rows (rl0, col0) = .ok (rl, col) →
    rl = rl0 ++ rows.filterMap (rowSuccess cache fs) := by
  induction rows with
  | nil =>
    intro rl0 col0 rl col h
    simp only [process_rows, Except.ok.injEq, Prod.mk.injEq] at h
    simp [h.1.symm]
  | cons row rest ih =>
    intro rl0 col0 rl col h
    obtain ⟨t, e⟩ := row
    cases hg : get_route cache fs t e with
    | error pe => simp [process_rows, hg] at h
    | ok pr =>
      obtain ⟨r?, err?⟩ := pr
      cases r? with
      | some r =>
        simp only [process_rows, hg] at h
        rw [ih _ _ _ _ h]
        simp [List.filterMap_cons, rowSuccess, hg]
      | none =>
        simp only [process_rows, hg] at h
        rw [ih _ _ _ _ h]
        simp [List.filterMap_cons, rowSuccess, hg]

/-- Claim C8: when the row loop completes without an uncaught exception,
the accumulated route list contains exactly the successfully resolved
paths, in original row order, with no error entries interleaved; and the
route-list file is fully overwritten (its new content does not depend on
its previous content). -/
theorem C8_routes_list_successes (cache : List (String × String))
    (fs : String → Except String Json) (rows : List (String × String))
    (rl : List String) (col : List (Option String))
    (h : process_rows cache fs rows ([], []) = .ok (rl, col)) :
    rl = rows.filterMap (rowSuccess cache fs) ∧
    ∀ prev, write_text_file prev (routes_file_content rl) = routes_file_content rl := by
  have h1 := process_rows_routes cache fs rows [] [] rl col h
  simpa using ⟨h1, fun _ => rfl⟩

/-- Witness for C8 at a concrete input: one successful row followed by a
failing row — the route list holds only the successful path. -/
theorem C8_witness :
    process_rows [("t", "p")] (fun _ => .ok (.obj [("ruta_landing", .str "/a")]))
        [("t", "x"), ("u", "y")] ([], [])
      = .ok (["/a"], [some "/a", some "FILE_NOT_FOUND: u.json"]) ∧
    ["/a"] = [("t", "x"), ("u", "y")].filterMap
        (rowSuccess [("t", "p")] (fun _ => .ok (.obj [("ruta_landing", .str "/a")]))) ∧
    ∀ prev, write_text_file prev (routes_file_content ["/a"]) = routes_file_content ["/a"] :=
  have h := C8_routes_list_successes [("t", "p")]
    (fun _ => .ok (.obj [("ruta_landing", .str "/a")]))
    [("t", "x"), ("u", "y")] ["/a"] [some "/a", some "FILE_NOT_FOUND: u.json"] (by decide)
  ⟨by decide, h.1, h.2⟩

/-- Claim C9: when saving the updated CSV dataset raises `PermissionError`
because the file is held open elsewhere, `main` returns immediately after
printing the dedicated lock message: neither the CSV file nor the
route-list file is modified (so no truncated route list is written), the
printed message is exactly the explicit lock message, and that message is
distinct from the messages of the successful save path. -/
theorem C9_locked_csv_preserves_routes (new_csv : String) (routes_list : List String)
    (s : SysState) :
    (save_outputs true new_csv routes_list s).routes_file = s.routes_file ∧
    (save_outputs true new_csv routes_list s).csv_file = s.csv_file ∧
    (save_outputs true new_csv routes_list s).console
      = s.console ++ ["⚠ CSV file is locked. Please close it and run again."] ∧
    ("⚠ CSV file is locked. Please close it and run again."
      ∉ ["✓ Updated CSV saved", "✓ Routes file saved"]) := by
  refine ⟨rfl, rfl, rfl, by decide⟩

/-! ### Helper lemmas about the index builder -/

theorem lookupKey_append_left {β : Type} (a b : List (String × β)) (k : String) (v : β)
    (h : lookupKey a k = some v) : lookupKey (a ++ b) k = some v := by
  induction a with
  | nil => simp [lookupKey] at h
  | cons kv rest ih =>
    by_cases hk : kv.1 = k
    · simp only [lookupKey, hk, if_true, List.cons_append, if_pos] at h ⊢
      exact h
    · simp only [lookupKey, hk, List.cons_append, if_neg, if_false] at h ⊢
      exact ih h

theorem lookupKey_append_right {β : Type} (a b : List (String × β)) (k : String)
    (h : lookupKey a k = none) : lookupKey (a ++ b) k = lookupKey b k := by
  induction a with
  | nil => simp
  | cons kv rest ih =>
    by_cases hk : kv.1 = k
    · simp [lookupKey, hk] at h
    · simp only [lookupKey, hk, if_neg, if_false, List.cons_append] at h ⊢
      exact ih h

theorem lookupKey_isSome_iff {β : Type} (d : List (String × β)) (k : String) :
    (lookupKey d k).isSome = true ↔ k ∈ d.map Prod.fst := by
  induction d with
  | nil => simp [lookupKey]
  | cons kv rest ih =>
    by_cases hk : kv.1 = k
    · simp [lookupKey, hk]
    · simp only [lookupKey, hk, if_false, List.map_cons, List.mem_cons, ih, if_neg]
      constructor
      · exact Or.inr
      · rintro (h | h)
        · exact absurd h.symm hk
        · exact h

theorem lookupKey_assign (d : List (String × String)) (k v k' : String) :
    lookupKey (dictAssign d k v) k' = if k' = k then some v else lookupKey d k' := by
  induction d with
  | nil =>
    by_cases hk : k' = k
    · simp [dictAssign, lookupKey, hk]
    · have hk2 : ¬ k = k' := fun h => hk h.symm
      simp [dictAssign, lookupKey, hk, hk2]
  | cons kv rest ih =>
    by_cases hkv : kv.1 = k
    · by_cases hk : k' = k
      · simp [dictAssign, lookupKey, hkv, hk]
      · have hk2 : ¬ k = k' := fun h => hk h.symm
        have hkv2 : ¬ kv.1 = k' := by rw [hkv]; exact hk2
        simp [dictAssign, lookupKey, hkv, hk, hk2, hkv2]
    · by_cases hk2 : kv.1 = k'
      · have hknk : ¬ k' = k := by rw [← hk2]; exact hkv
        simp [dictAssign, lookupKey, hkv, hk2, hknk]
      · simp only [dictAssign, hkv, if_neg, if_false, lookupKey, hk2]
        exact ih

theorem keys_assign (d : List (String × String)) (k v : String) :
    (dictAssign d k v).map Prod.fst
      = if (lookupKey d k).isSome then d.map Prod.fst else d.map Prod.fst ++ [k] := by
  induction d with
  | nil => simp [dictAssign, lookupKey]
  | cons kv rest ih =>
    by_cases hkv : kv.1 = k
    · simp [dictAssign, lookupKey, hkv]
    · simp only [dictAssign, hkv, if_neg, if_false, List.map_cons, lookupKey]
      rw [ih]
      by_cases hs : (lookupKey rest k).isSome
      · simp [hs]
      · simp [hs]

theorem nodup_assign (d : List (String × String)) (k v : String)
    (h : (d.map Prod.fst).Nodup) : ((dictAssign d k v).map Prod.fst).Nodup := by
  rw [keys_assign]
  by_cases hs : (lookupKey d k).isSome
  · simpa [hs] using h
  · rw [if_neg hs]
    have hk : k ∉ d.map Prod.fst := fun hmem => hs ((lookupKey_isSome_iff d k).2 hmem)
    simp [List.nodup_append, h, hk]

/-! #### The flat `params_Ingestas` scan -/

theorem flatFold_isSome (params_dir : String) (files : List String)
    (cache : List (String × String)) (k : String) :
    (lookupKey (files.foldl (insertFlat params_dir) cache) k).isSome
      = ((lookupKey cache k).isSome || flatHasTerm files k) := by
  induction files generalizing cache with
  | nil => simp [flatHasTerm]
  | cons f rest ih =>
    have hstep : (lookupKey (insertFlat params_dir cache f) k).isSome
        = ((lookupKey cache k).isSome || (pyEndsWith f ".json" && pyDropLast f 5 == k)) := by
      unfold insertFlat
      by_cases hj : pyEndsWith f ".json" = true
      · rw [if_pos hj, lookupKey_assign]
        by_cases hk : k = pyDropLast f 5
        · subst hk
          simp [hj]
        · have : (pyDropLast f 5 == k) = false := by
            simp [beq_eq_false_iff_ne]
            exact fun h => hk h.symm
          simp [hk, this]
      · rw [Bool.not_eq_true] at hj
        simp [hj]
    rw [List.foldl_cons, ih, hstep]
    unfold flatHasTerm
    rw [List.any_cons, Bool.or_assoc]

theorem flatFold_lookup_src (params_dir : String) (files : List String)
    (cache : List (String × String)) (k w : String)
    (h : lookupKey (files.foldl (insertFlat params_dir) cache) k = some w) :
    lookupKey cache k = some w ∨
    ∃ fn, fn ∈ files ∧ pyEndsWith fn ".json" = true ∧ pyDropLast fn 5 = k ∧
      w = osJoin params_dir fn := by
  induction files generalizing cache with
  | nil => exact Or.inl (by simpa using h)
  | cons f rest ih =>
    rw [List.foldl_cons] at h
    rcases ih (insertFlat params_dir cache f) h with h1 | ⟨fn, hmem, hj, hs, hw⟩
    · unfold insertFlat at h1
      by_cases hj : pyEndsWith f ".json" = true
      · rw [if_pos hj, lookupKey_assign] at h1
        by_cases hk : k = pyDropLast f 5
        · rw [if_pos hk] at h1
          exact Or.inr ⟨f, List.mem_cons_self _ _, hj, hk.symm, (Option.some.inj h1).symm⟩
        · rw [if_neg hk] at h1
          exact Or.inl h1
      · rw [if_neg hj] at h1
        exact Or.inl h1
    · exact Or.inr ⟨fn, List.mem_cons_of_mem _ hmem, hj, hs, hw⟩

theorem flatFold_nodup (params_dir : String) (files : List String)
    (cache : List (String × String)) (h : (cache.map Prod.fst).Nodup) :
    (((files.foldl (insertFlat params_dir) cache)).map Prod.fst).Nodup := by
  induction files generalizing cache with
  | nil => exact h
  | cons f rest ih =>
    rw [List.foldl_cons]
    apply ih
    unfold insertFlat
    by_cases hj : pyEndsWith f ".json" = true
    · rw [if_pos hj]
      exact nodup_assign _ _ _ h
    · rwa [if_neg hj]

/-! #### The recursive `atlas_prod-main` walk -/

theorem treeStep_lookup_pres (cache : List (String × String)) (rf : String × String)
    (k : String) (v : String) (h : lookupKey cache k = some v) :
    lookupKey (insertTree cache rf) k = some v := by
  unfold insertTree
  by_cases hj : pyEndsWith rf.2 ".json" = true
  · rw [if_pos hj]
    by_cases hs : (lookupKey cache (pyDropLast rf.2 5)).isSome
    · simpa [hs] using h
    · simp only [hs, if_false, Bool.false_eq_true, if_neg]
      exact lookupKey_append_left _ _ _ _ h
  · rwa [if_neg hj]

theorem treeFold_lookup_pres (walk : List (String × String))
    (cache : List (String × String)) (k v : String) (h : lookupKey cache k = some v) :
    lookupKey (walk.foldl insertTree cache) k = some v := by
  induction walk generalizing cache with
  | nil => exact h
  | cons rf rest ih =>
    rw [List.foldl_cons]
    exact ih _ (treeStep_lookup_pres cache rf k v h)

theorem treeFold_isSome (walk : List (String × String))
    (cache : List (String × String)) (k : String) :
    (lookupKey (walk.foldl insertTree cache) k).isSome
      = ((lookupKey cache k).isSome || treeHasTerm walk k) := by
  induction walk generalizing cache with
  | nil => simp [treeHasTerm]
  | cons rf rest ih =>
    have hstep : (lookupKey (insertTree cache rf) k).isSome
        = ((lookupKey cache k).isSome || (pyEndsWith rf.2 ".json" && pyDropLast rf.2 5 == k)) := by
      unfold insertTree
      by_cases hj : pyEndsWith rf.2 ".json" = true
      · rw [if_pos hj]
        by_cases hs : (lookupKey cache (pyDropLast rf.2 5)).isSome
        · rw [if_pos hs]
          by_cases hk : k = pyDropLast rf.2 5
          · have h1 : (lookupKey cache k).isSome = true := by rw [hk]; exact hs
            simp [h1]
          · have hne : (pyDropLast rf.2 5 == k) = false :=
              beq_eq_false_iff_ne.2 (fun h => hk h.symm)
            simp [hne]
        · rw [if_neg hs]
          by_cases hk : k = pyDropLast rf.2 5
          · have hnone : lookupKey cache k = none := by
              rw [hk]
              cases hc : lookupKey cache (pyDropLast rf.2 5) with
              | none => rfl
              | some w => rw [hc] at hs; exact absurd rfl hs
            rw [lookupKey_append_right _ _ _ hnone]
            have h2 : lookupKey [(pyDropLast rf.2 5, osJoin rf.1 rf.2)] k
                = some (osJoin rf.1 rf.2) := by simp [lookupKey, hk]
            simp [h2, hnone, hj, hk, lookupKey]
          · have hk2 : ¬ pyDropLast rf.2 5 = k := fun h => hk h.symm
            have hne : (pyDropLast rf.2 5 == k) = false := beq_eq_false_iff_ne.2 hk2
            have h2 : lookupKey [(pyDropLast rf.2 5, osJoin rf.1 rf.2)] k = none := by
              simp [lookupKey, hk2]
            cases hc : lookupKey cache k with
            | none =>
              rw [lookupKey_append_right _ _ _ hc, h2]
              simp [hne]
            | some w =>
              rw [lookupKey_append_left _ _ _ _ hc]
              simp [hc, hne]
      · rw [Bool.not_eq_true] at hj
        simp [hj]
    rw [List.foldl_cons, ih, hstep]
    unfold treeHasTerm
    rw [List.any_cons, Bool.or_assoc]

theorem treeFold_nodup (walk : List (String × String))
    (cache : List (String × String)) (h : (cache.map Prod.fst).Nodup) :
    ((walk.foldl insertTree cache).map Prod.fst).Nodup := by
  induction walk generalizing cache with
  | nil => exact h
  | cons rf rest ih =>
    rw [List.foldl_cons]
    apply ih
    unfold insertTree
    by_cases hj : pyEndsWith rf.2 ".json" = true
    · rw [if_pos hj]
      by_cases hs : (lookupKey cache (pyDropLast rf.2 5)).isSome
      · rwa [if_pos hs]
      · rw [if_neg hs]
        have hk : pyDropLast rf.2 5 ∉ cache.map Prod.fst :=
          fun hmem => hs ((lookupKey_isSome_iff _ _).2 hmem)
        simp [List.nodup_append, h, hk]
    · rwa [if_neg hj]

/-- Claim C3: for every term identifier contributed by either search
location, the built index has exactly one entry for it; and when the
identifier is contributed by both the flat directory and the directory
tree, the indexed location is the flat-directory one (the flat directory
is scanned first and the tree walk skips already-registered identifiers).
-/
theorem C3_index_unique_flat_precedence (params_dir : String)
    (params_files : List String) (atlas_walk : List (String × String)) (term : String) :
    ((flatHasTerm params_files term = true ∨ treeHasTerm atlas_walk term = true) →
      ((build_json_cache params_dir params_files atlas_walk).map Prod.fst).count term = 1) ∧
    (flatHasTerm params_files term = true ∧ treeHasTerm atlas_walk term = true →
      ∃ fn, fn ∈ params_files ∧ pyEndsWith fn ".json" = true ∧ pyDropLast fn 5 = term ∧
        lookupKey (build_json_cache params_dir params_files atlas_walk) term
          = some (osJoin params_dir fn)) := by
  constructor
  · intro hmem
    have hnd : ((build_json_cache params_dir params_files atlas_walk).map Prod.fst).Nodup :=
      treeFold_nodup _ _ (flatFold_nodup _ _ [] (by simp))
    have hsome : (lookupKey (build_json_cache params_dir params_files atlas_walk) term).isSome
        = true := by
      unfold build_json_cache
      rw [treeFold_isSome, flatFold_isSome]
      rcases hmem with hm | hm <;> simp [hm, lookupKey]
    exact List.count_eq_one_of_mem hnd ((lookupKey_isSome_iff _ _).1 hsome)
  · rintro ⟨hflat, _⟩
    have hsome : (lookupKey (params_files.foldl (insertFlat params_dir) []) term).isSome
        = true := by
      rw [flatFold_isSome]
      simp [hflat, lookupKey]
    obtain ⟨w, hw⟩ := Option.isSome_iff_exists.1 hsome
    rcases flatFold_lookup_src params_dir params_files [] term w hw with h1 | ⟨fn, hmem, hj, hs, hwv⟩
    · simp [lookupKey] at h1
    · exact ⟨fn, hmem, hj, hs, by
        rw [hwv] at hw
        exact treeFold_lookup_pres atlas_walk _ term _ hw⟩

/-- Witness for C3 at a concrete input: the identifier `t` appears in the
flat directory (as `t.json`) and in the tree walk; the index holds exactly
one entry for it, located in the flat directory. -/
theorem C3_witness :
    (((build_json_cache "P" ["t.json"] [("r", "t.json")]).map Prod.fst).count "t" = 1) ∧
    ∃ fn, fn ∈ ["t.json"] ∧ pyEndsWith fn ".json" = true ∧ pyDropLast fn 5 = "t" ∧
      lookupKey (build_json_cache "P" ["t.json"] [("r", "t.json")]) "t"
        = some (osJoin "P" fn) :=
  have h := C3_index_unique_flat_precedence "P" ["t.json"] [("r", "t.json")] "t"
  ⟨h.1 (Or.inl (by decide)), h.2 ⟨by decide, by decide⟩⟩

end ExtractRoutes
